import Mathlib

/-!
Shallow embedding of the device-state synchronization core of the
hid-sony style game-controller driver: the input-report decode path
(`sony_raw_event` / `sixaxis_parse_report`), the output-report encoder
(`sixaxis_send_output_report`), the LED brightness setter and its
synchronous Buzz-style send path, the global identity registry
(`sony_check_add_dev_list`), the deferred-first-flush latch and the
numeric device-id release. Machine bytes are modelled as `Nat` values
below 256; raw report buffers are functions from byte offset to byte.
-/

/-- Quirk bit for a Sixaxis controller connected over USB (BIT(1)). -/
def SIXAXIS_CONTROLLER_USB : Nat := 2

/-- Quirk bit for a Sixaxis controller connected over Bluetooth (BIT(2)). -/
def SIXAXIS_CONTROLLER_BT : Nat := 4

/-- Mask of the two Sixaxis transport quirk bits. -/
def SIXAXIS_CONTROLLER : Nat := SIXAXIS_CONTROLLER_USB ||| SIXAXIS_CONTROLLER_BT

/-- Quirk mask identifying Bluetooth devices. -/
def SONY_BT_DEVICE : Nat := SIXAXIS_CONTROLLER_BT

/-- Kernel power-supply status: charging. -/
def POWER_SUPPLY_STATUS_CHARGING : Nat := 1

/-- Kernel power-supply status: discharging. -/
def POWER_SUPPLY_STATUS_DISCHARGING : Nat := 2

/-- Kernel power-supply status: full. -/
def POWER_SUPPLY_STATUS_FULL : Nat := 4

/-- The mutable per-device record `struct sony_sc`, restricted to the fields
the synchronization core touches. LED arrays are functions from LED index. -/
structure sony_sc where
  quirks : Nat
  mac_address : List Nat
  device_id : Int
  defer_initialization : Bool
  state_worker_initialized : Bool
  battery_capacity : Nat
  battery_status : Nat
  led_state : Nat → Nat
  led_delay_on : Nat → Nat
  led_delay_off : Nat → Nat
  led_count : Nat
  left : Nat
  right : Nat

/-- One decoded accelerometer sample (the three values the driver pushes
to the sensor input device). -/
structure SixaxisSample where
  x : Int
  y : Int
  z : Int
deriving DecidableEq

/-- The fixed six-entry battery capacity table of `sixaxis_parse_report`. -/
def sixaxis_battery_capacity : List Nat := [0, 1, 25, 50, 75, 100]

/-- Embedding of `sixaxis_parse_report`: updates the battery fields from
byte 30 of the (already byte-swapped) report and, for Sixaxis devices,
produces the accelerometer sample exactly as the code computes it
(offset constant 41; the Y high byte is read at offset 41 + 35 = 76). -/
def sixaxis_parse_report (sc : sony_sc) (rd : Nat → Nat) : sony_sc × Option SixaxisSample :=
  let battery :=
    if 0xee ≤ rd 30 then
      (100, if rd 30 &&& 0x01 ≠ 0 then POWER_SUPPLY_STATUS_FULL else POWER_SUPPLY_STATUS_CHARGING)
    else
      (sixaxis_battery_capacity.getD (if rd 30 ≤ 5 then rd 30 else 5) 0,
       POWER_SUPPLY_STATUS_DISCHARGING)
  let sc2 := { sc with battery_capacity := battery.1, battery_status := battery.2 }
  let sample :=
    if sc.quirks &&& SIXAXIS_CONTROLLER ≠ 0 then
      let offset := 41
      some { x := ((rd (offset + 1) <<< 8 ||| rd offset : Nat) : Int) - 511,
             y := 511 - ((rd (offset + 35) <<< 8 ||| rd (offset + 4) : Nat) : Int),
             z := 511 - ((rd (offset + 3) <<< 8 ||| rd (offset + 2) : Nat) : Int) }
    else none
  (sc2, sample)

/-- In-place byte swap of two offsets of a report buffer. -/
def swapBytes (rd : Nat → Nat) (i j : Nat) : Nat → Nat :=
  fun k => if k = i then rd j else if k = j then rd i else rd k

/-- Embedding of `sony_schedule_work` for `SONY_WORKER_STATE`: returns
whether `schedule_work` is actually invoked (it is skipped while the
deferred-initialization latch is set or the worker is torn down). -/
def sony_schedule_work (sc : sony_sc) : Bool :=
  !sc.defer_initialization && sc.state_worker_initialized

/-- Result of one `sony_raw_event` call: the new device record, the
accelerometer sample handed to the input layer (if any), the C return
value, and whether a state-worker flush was enqueued by this call. -/
structure RawEventResult where
  sc : sony_sc
  sample : Option SixaxisSample
  ret : Int
  scheduled : Bool

/-- The tail of `sony_raw_event`: if the deferred-initialization latch is
set, clear it and call `sony_schedule_work` on the updated record. -/
def sony_defer_step (sc : sony_sc) (sample : Option SixaxisSample) : RawEventResult :=
  if sc.defer_initialization then
    let sc2 := { sc with defer_initialization := false }
    { sc := sc2, sample := sample, ret := 0, scheduled := sony_schedule_work sc2 }
  else
    { sc := sc, sample := sample, ret := 0, scheduled := false }

/-- Embedding of `sony_raw_event`: for a Sixaxis device, a report-id 0x01
frame of exactly 49 bytes is either rejected as spurious (second byte
0xff, returning -EINVAL before any state is touched) or byte-swapped at
the four pairs (41,42), (43,44), (45,46), (47,48) and parsed; every
non-rejected call then runs the deferred-initialization step. -/
def sony_raw_event (sc : sony_sc) (rd : Nat → Nat) (size : Nat) : RawEventResult :=
  if sc.quirks &&& SIXAXIS_CONTROLLER ≠ 0 ∧ rd 0 = 0x01 ∧ size = 49 then
    if rd 1 = 0xff then
      { sc := sc, sample := none, ret := -22, scheduled := false }
    else
      let rdA := swapBytes rd 41 42
      let rdB := swapBytes rdA 43 44
      let rdC := swapBytes rdB 45 46
      let rdD := swapBytes rdC 47 48
      let p := sixaxis_parse_report sc rdD
      sony_defer_step p.1 p.2
  else
    sony_defer_step sc none

/-- Battery byte mapping in the specification wording: raw value at
least 0xEE gives 100 percent with Full when the low bit is set and
Charging otherwise; any smaller raw value is clamped to at most 5 and
looked up in the fixed capacity table, with status Discharging. -/
def spec_battery_map (raw : Nat) : Nat × Nat :=
  if 0xEE ≤ raw then
    (100, if raw.testBit 0 then POWER_SUPPLY_STATUS_FULL else POWER_SUPPLY_STATUS_CHARGING)
  else
    ([0, 1, 25, 50, 75, 100].getD (min raw 5) 0, POWER_SUPPLY_STATUS_DISCHARGING)

lemma parse_battery_eq (sc : sony_sc) (rd : Nat → Nat) :
    ((sixaxis_parse_report sc rd).1.battery_capacity,
     (sixaxis_parse_report sc rd).1.battery_status) = spec_battery_map (rd 30) := by
  unfold sixaxis_parse_report spec_battery_map
  have hm2 : rd 30 &&& 1 = rd 30 % 2 := Nat.and_one_is_mod _
  by_cases h : 0xee ≤ rd 30
  · rcases Nat.mod_two_eq_zero_or_one (rd 30) with hp | hp
    · simp [h, hm2, hp, Nat.testBit_zero]
    · simp [h, hm2, hp, Nat.testBit_zero]
  · have hm : (if rd 30 ≤ 5 then rd 30 else 5) = min (rd 30) 5 := by
      rw [Nat.min_def]
    simp [h, hm, sixaxis_battery_capacity]

/-- Claim C2: the battery byte (offset 30) decodes as the spec states:
raw value at least 0xEE gives capacity 100 with status Full when the low
bit is 1 and Charging when it is 0; any smaller raw value is clamped to
at most 5 and indexed into the table 0,1,25,50,75,100 with status
Discharging; in particular raw 3 gives 50 Discharging and raw 9 gives
100 Discharging. -/
theorem C2_battery_mapping (sc : sony_sc) (rd : Nat → Nat) :
    ((sixaxis_parse_report sc rd).1.battery_capacity,
     (sixaxis_parse_report sc rd).1.battery_status) = spec_battery_map (rd 30) ∧
    spec_battery_map 0xEE = (100, POWER_SUPPLY_STATUS_CHARGING) ∧
    spec_battery_map 0xEF = (100, POWER_SUPPLY_STATUS_FULL) ∧
    spec_battery_map 3 = (50, POWER_SUPPLY_STATUS_DISCHARGING) ∧
    spec_battery_map 9 = (100, POWER_SUPPLY_STATUS_DISCHARGING) :=
  ⟨parse_battery_eq sc rd, by decide, by decide, by decide, by decide⟩

/-- Embedding of `sony_compare_connection_type`: two records classify
equal when both are non-Bluetooth or both are Bluetooth. -/
def sony_compare_connection_type (sc0 sc1 : sony_sc) : Bool :=
  decide (sc0.quirks &&& SONY_BT_DEVICE = 0) == decide (sc1.quirks &&& SONY_BT_DEVICE = 0)

/-- Embedding of `sony_check_add_dev_list`: scan the global device list
for an entry with the same 6-byte MAC address; on a match return 1 (the
duplicate-physical-device flag) when the connection classifications
agree and -EEXIST when they differ; otherwise prepend the new record. -/
def sony_check_add_dev_list (sc : sony_sc) (l : List sony_sc) : Int × List sony_sc :=
  match l.find? (fun entry => sc.mac_address == entry.mac_address) with
  | some entry =>
      if sony_compare_connection_type sc entry then (1, l) else (-17, l)
  | none => (0, sc :: l)

/-- A baseline device record used for concrete scenarios. -/
def mkSc (quirks : Nat) (mac : List Nat) : sony_sc :=
  { quirks := quirks, mac_address := mac, device_id := -1,
    defer_initialization := false, state_worker_initialized := true,
    battery_capacity := 100, battery_status := 0,
    led_state := fun _ => 0, led_delay_on := fun _ => 0,
    led_delay_off := fun _ => 0, led_count := 4, left := 0, right := 0 }

/-- A USB-connected Sixaxis record. -/
def scUsbA : sony_sc := mkSc SIXAXIS_CONTROLLER_USB [1, 2, 3, 4, 5, 6]

/-- A second USB-connected record with the same MAC address as `scUsbA`. -/
def scUsbB : sony_sc := mkSc SIXAXIS_CONTROLLER_USB [1, 2, 3, 4, 5, 6]

/-- A Bluetooth-connected record with the same MAC address as `scUsbA`. -/
def scBtA : sony_sc := mkSc SIXAXIS_CONTROLLER_BT [1, 2, 3, 4, 5, 6]

/-- Claim C1, counterexample: registering a second USB record whose MAC
address and is-Bluetooth classification both match an existing entry
returns 1 (success, flagged duplicate), not -EEXIST as the claim states;
and registering a Bluetooth record whose classification differs returns
-EEXIST instead of succeeding. -/
theorem C1_counterexample :
    (sony_check_add_dev_list scUsbB [scUsbA]).1 = 1 ∧
    (sony_check_add_dev_list scUsbB [scUsbA]).1 ≠ -17 ∧
    (sony_check_add_dev_list scBtA [scUsbA]).1 = -17 ∧
    (sony_check_add_dev_list scBtA [scUsbA]).1 ≠ 1 := by
  refine ⟨?_, ?_, ?_, ?_⟩ <;> decide

/-- Claim C1 as amended: starting from a list with no entry matching the
new record's MAC address, the first registration succeeds and is not
flagged; a second registration with the same MAC address then returns 1
(success, duplicate-physical-device flag) when the two classifications
agree and -EEXIST (AlreadyConnected) when they differ. -/
theorem C1_register_duplicate_policy (sc0 sc1 : sony_sc) (l : List sony_sc)
    (hmac : sc1.mac_address = sc0.mac_address)
    (hfresh : l.find? (fun entry => sc0.mac_address == entry.mac_address) = none) :
    (sony_check_add_dev_list sc0 l).1 = 0 ∧
    (sony_check_add_dev_list sc0 l).2 = sc0 :: l ∧
    (sony_compare_connection_type sc1 sc0 = true →
      (sony_check_add_dev_list sc1 ((sony_check_add_dev_list sc0 l).2)).1 = 1) ∧
    (sony_compare_connection_type sc1 sc0 = false →
      (sony_check_add_dev_list sc1 ((sony_check_add_dev_list sc0 l).2)).1 = -17) := by
  have h1 : sony_check_add_dev_list sc0 l = (0, sc0 :: l) := by
    unfold sony_check_add_dev_list
    rw [hfresh]
  refine ⟨by rw [h1], by rw [h1], ?_, ?_⟩
  · intro hc
    rw [h1]
    unfold sony_check_add_dev_list
    have hfind : (sc0 :: l).find? (fun entry => sc1.mac_address == entry.mac_address)
        = some sc0 := by
      rw [List.find?_cons_of_pos]
      simp [hmac]
    rw [hfind]
    simp [hc]
  · intro hc
    rw [h1]
    unfold sony_check_add_dev_list
    have hfind : (sc0 :: l).find? (fun entry => sc1.mac_address == entry.mac_address)
        = some sc0 := by
      rw [List.find?_cons_of_pos]
      simp [hmac]
    rw [hfind]
    simp [hc]

/-- Witness for the amended claim C1 at a concrete pair of USB records
sharing a MAC address, starting from the empty list. -/
theorem C1_register_duplicate_policy_witness :
    (sony_check_add_dev_list scUsbA []).1 = 0 ∧
    (sony_check_add_dev_list scUsbA []).2 = scUsbA :: [] ∧
    (sony_compare_connection_type scUsbB scUsbA = true →
      (sony_check_add_dev_list scUsbB ((sony_check_add_dev_list scUsbA []).2)).1 = 1) ∧
    (sony_compare_connection_type scUsbB scUsbA = false →
      (sony_check_add_dev_list scUsbB ((sony_check_add_dev_list scUsbA []).2)).1 = -17) :=
  C1_register_duplicate_policy scUsbA scUsbB [] rfl rfl

lemma defer_step_sample (sc : sony_sc) (s : Option SixaxisSample) :
    (sony_defer_step sc s).sample = s := by
  unfold sony_defer_step
  split <;> rfl

lemma defer_step_battery (sc : sony_sc) (s : Option SixaxisSample) :
    (sony_defer_step sc s).sc.battery_capacity = sc.battery_capacity := by
  unfold sony_defer_step
  split <;> rfl

lemma sixaxis_decode_eq (sc : sony_sc) (rd : Nat → Nat)
    (hq : sc.quirks &&& SIXAXIS_CONTROLLER ≠ 0) (h0 : rd 0 = 0x01) (h1 : rd 1 ≠ 0xff) :
    (sony_raw_event sc rd 49).sample =
      some { x := ((rd 41 <<< 8 ||| rd 42 : Nat) : Int) - 511,
             y := 511 - ((rd 76 <<< 8 ||| rd 46 : Nat) : Int),
             z := 511 - ((rd 43 <<< 8 ||| rd 44 : Nat) : Int) } := by
  unfold sony_raw_event
  rw [if_pos ⟨hq, h0, rfl⟩, if_neg h1]
  simp only [defer_step_sample]
  simp [sixaxis_parse_report, swapBytes, hq]

lemma raw_event_battery (sc : sony_sc) (rd : Nat → Nat)
    (hq : sc.quirks &&& SIXAXIS_CONTROLLER ≠ 0) (h0 : rd 0 = 0x01) (h1 : rd 1 ≠ 0xff) :
    (sony_raw_event sc rd 49).sc.battery_capacity = (spec_battery_map (rd 30)).1 := by
  unfold sony_raw_event
  rw [if_pos ⟨hq, h0, rfl⟩, if_neg h1]
  simp only [defer_step_battery]
  have hswap : (swapBytes (swapBytes (swapBytes (swapBytes rd 41 42) 43 44) 45 46) 47 48) 30
      = rd 30 := by
    simp [swapBytes]
  have h := congrArg Prod.fst
    (parse_battery_eq sc (swapBytes (swapBytes (swapBytes (swapBytes rd 41 42) 43 44) 45 46) 47 48))
  simp only at h
  rw [hswap] at h
  exact h

lemma spec_battery_capacity_mem (b : Nat) :
    (spec_battery_map b).1 ∈ ([0, 1, 25, 50, 75, 100] : List Nat) := by
  by_cases h : 0xEE ≤ b
  · simp [spec_battery_map, h]
  · have h5 : min b 5 ≤ 5 := Nat.min_le_right _ _
    simp only [spec_battery_map, if_neg h]
    set m := min b 5 with hm
    interval_cases m <;> decide

lemma u16_le (a b : Nat) (ha : a < 256) (hb : b < 256) : a <<< 8 ||| b ≤ 65535 := by
  have h8 : (2 : Nat) ^ 8 = 256 := by norm_num
  have h := Nat.append_lt (h8 ▸ hb) (h8 ▸ ha)
  have h16 : (2 : Nat) ^ (8 + 8) = 65536 := by norm_num
  omega

/-- A frame of all 1 bytes: report id 0x01, second byte not 0xff. -/
def rdOnes : Nat → Nat := fun _ => 1

/-- A 49-byte all-zero report-id-1 frame whose adjacent memory byte at
offset 76 is 1. -/
def rdGhost : Nat → Nat := fun i => if i = 0 then 1 else if i = 76 then 1 else 0

/-- A report-id-1 frame of zeros, with all adjacent memory zero too. -/
def rdClean : Nat → Nat := fun i => if i = 0 then 1 else 0

/-- Claim C3, counterexample: two buffers that agree on every one of the
49 in-frame bytes decode to different accelerometer samples, because the
Y axis high byte is read at offset 76, outside the 49-byte report; so
not all raw 16-bit values are read from offsets within the report. -/
theorem C3_counterexample :
    ((List.range 49).all (fun i => rdGhost i == rdClean i) = true) ∧
    (sony_raw_event scUsbA rdGhost 49).sample = some { x := -511, y := 255, z := 511 } ∧
    (sony_raw_event scUsbA rdClean 49).sample = some { x := -511, y := 511, z := 511 } ∧
    (sony_raw_event scUsbA rdGhost 49).sample ≠ (sony_raw_event scUsbA rdClean 49).sample := by
  refine ⟨by decide, by decide, by decide, by decide⟩

/-- Claim C3 as amended: the accepted frame is byte-swapped at the four
pairs (41,42), (43,44), (45,46), (47,48), after which X = u16 - 511 with
the 16-bit value taken most-significant-byte-first at offsets 41,42 and
Z = 511 - u16 at offsets 43,44; Y = 511 - u16 is inverted like Z but its
high byte comes from offset 76 (outside the 49-byte frame) and its low
byte from offset 46. -/
theorem C3_accel_decode (sc : sony_sc) (rd : Nat → Nat)
    (hq : sc.quirks &&& SIXAXIS_CONTROLLER ≠ 0) (h0 : rd 0 = 0x01) (h1 : rd 1 ≠ 0xff) :
    (sony_raw_event sc rd 49).sample =
      some { x := ((rd 41 <<< 8 ||| rd 42 : Nat) : Int) - 511,
             y := 511 - ((rd 76 <<< 8 ||| rd 46 : Nat) : Int),
             z := 511 - ((rd 43 <<< 8 ||| rd 44 : Nat) : Int) } :=
  sixaxis_decode_eq sc rd hq h0 h1

/-- Witness for the amended claim C3 on a concrete all-ones frame. -/
theorem C3_accel_decode_witness :
    (sony_raw_event scUsbA rdOnes 49).sample =
      some { x := ((rdOnes 41 <<< 8 ||| rdOnes 42 : Nat) : Int) - 511,
             y := 511 - ((rdOnes 76 <<< 8 ||| rdOnes 46 : Nat) : Int),
             z := 511 - ((rdOnes 43 <<< 8 ||| rdOnes 44 : Nat) : Int) } :=
  C3_accel_decode scUsbA rdOnes (by decide) rfl (by decide)

/-- A report-id-1 frame with 0xff in both accelerometer X bytes. -/
def rdBig : Nat → Nat :=
  fun i => if i = 0 then 1 else if i = 41 then 255 else if i = 42 then 255 else 0

/-- Claim C4, counterexample: a 49-byte frame with byte 1 different from
0xff whose decoded X axis value is 65024, far outside [-512, 511]. -/
theorem C4_counterexample :
    (sony_raw_event scUsbA rdBig 49).sample = some { x := 65024, y := 511, z := 511 } ∧
    ¬ ((65024 : Int) ≤ 511) := by
  refine ⟨by decide, by decide⟩

/-- Claim C4 as amended: for every 49-byte frame of bytes with byte 0
equal to 0x01 and byte 1 not 0xff, the decode produces a sample whose
axis values satisfy -511 ≤ X ≤ 65024 and -65024 ≤ Y, Z ≤ 511 (the raw
16-bit reads are not constrained to 10 bits), and a battery capacity in
the table 0, 1, 25, 50, 75, 100. -/
theorem C4_decode_ranges (sc : sony_sc) (rd : Nat → Nat)
    (hb : ∀ i, rd i < 256)
    (hq : sc.quirks &&& SIXAXIS_CONTROLLER ≠ 0) (h0 : rd 0 = 0x01) (h1 : rd 1 ≠ 0xff) :
    (sony_raw_event sc rd 49).sample ≠ none ∧
    (-511 ≤ ((sony_raw_event sc rd 49).sample.getD { x := 0, y := 0, z := 0 }).x ∧
      ((sony_raw_event sc rd 49).sample.getD { x := 0, y := 0, z := 0 }).x ≤ 65024) ∧
    (-65024 ≤ ((sony_raw_event sc rd 49).sample.getD { x := 0, y := 0, z := 0 }).y ∧
      ((sony_raw_event sc rd 49).sample.getD { x := 0, y := 0, z := 0 }).y ≤ 511) ∧
    (-65024 ≤ ((sony_raw_event sc rd 49).sample.getD { x := 0, y := 0, z := 0 }).z ∧
      ((sony_raw_event sc rd 49).sample.getD { x := 0, y := 0, z := 0 }).z ≤ 511) ∧
    (sony_raw_event sc rd 49).sc.battery_capacity ∈ ([0, 1, 25, 50, 75, 100] : List Nat) := by
  have hdec := sixaxis_decode_eq sc rd hq h0 h1
  have hx := u16_le (rd 41) (rd 42) (hb 41) (hb 42)
  have hy := u16_le (rd 76) (rd 46) (hb 76) (hb 46)
  have hz := u16_le (rd 43) (rd 44) (hb 43) (hb 44)
  refine ⟨by rw [hdec]; simp, ?_, ?_, ?_, ?_⟩
  · rw [hdec]
    simp only [Option.getD_some]
    omega
  · rw [hdec]
    simp only [Option.getD_some]
    omega
  · rw [hdec]
    simp only [Option.getD_some]
    omega
  · rw [raw_event_battery sc rd hq h0 h1]
    exact spec_battery_capacity_mem (rd 30)

/-- Witness for the amended claim C4 on a concrete all-ones frame. -/
theorem C4_decode_ranges_witness :
    (sony_raw_event scUsbA rdOnes 49).sample ≠ none ∧
    (-511 ≤ ((sony_raw_event scUsbA rdOnes 49).sample.getD { x := 0, y := 0, z := 0 }).x ∧
      ((sony_raw_event scUsbA rdOnes 49).sample.getD { x := 0, y := 0, z := 0 }).x ≤ 65024) ∧
    (-65024 ≤ ((sony_raw_event scUsbA rdOnes 49).sample.getD { x := 0, y := 0, z := 0 }).y ∧
      ((sony_raw_event scUsbA rdOnes 49).sample.getD { x := 0, y := 0, z := 0 }).y ≤ 511) ∧
    (-65024 ≤ ((sony_raw_event scUsbA rdOnes 49).sample.getD { x := 0, y := 0, z := 0 }).z ∧
      ((sony_raw_event scUsbA rdOnes 49).sample.getD { x := 0, y := 0, z := 0 }).z ≤ 511) ∧
    (sony_raw_event scUsbA rdOnes 49).sc.battery_capacity ∈ ([0, 1, 25, 50, 75, 100] : List Nat) :=
  C4_decode_ranges scUsbA rdOnes (fun _ => by show (1 : Nat) < 256; decide) (by decide) rfl
    (by decide)

/-- A Sixaxis record with the deferred-initialization latch set. -/
def scDefer : sony_sc :=
  { mkSc SIXAXIS_CONTROLLER_USB [1, 2, 3, 4, 5, 6] with defer_initialization := true }

/-- The spurious Bluetooth glitch frame: report id 0x01, second byte
0xff, rest zero. -/
def rdSpur : Nat → Nat := fun i => if i = 0 then 1 else if i = 1 then 0xff else 0

/-- A 49-byte frame with byte 1 = 0xff but whose report id byte is 0,
so the Sixaxis branch of `sony_raw_event` never examines it. -/
def rdNoId : Nat → Nat := fun i => if i = 1 then 0xff else 0

/-- Claim C5, counterexample: a 49-byte frame whose byte at offset 1 is
0xff but whose report id byte is not 0x01 is accepted (return 0, not
-EINVAL), and it does mutate state: it clears the set
deferred-initialization latch. -/
theorem C5_counterexample :
    (sony_raw_event scDefer rdNoId 49).ret = 0 ∧
    (sony_raw_event scDefer rdNoId 49).ret ≠ -22 ∧
    (sony_raw_event scDefer rdNoId 49).sc.defer_initialization = false ∧
    scDefer.defer_initialization = true := by
  refine ⟨by decide, by decide, by decide, by decide⟩

/-- Claim C5 as amended: for every 49-byte frame whose report id byte is
0x01 and whose byte at offset 1 is 0xff, delivered to a Sixaxis device,
`sony_raw_event` returns -EINVAL and performs no state mutation at all:
the returned record is the input record, no sample is produced, and no
flush is scheduled. -/
theorem C5_spurious_reject (sc : sony_sc) (rd : Nat → Nat)
    (hq : sc.quirks &&& SIXAXIS_CONTROLLER ≠ 0) (h0 : rd 0 = 0x01) (h1 : rd 1 = 0xff) :
    sony_raw_event sc rd 49 =
      { sc := sc, sample := none, ret := -22, scheduled := false } := by
  unfold sony_raw_event
  rw [if_pos ⟨hq, h0, rfl⟩, if_pos h1]

/-- Witness for the amended claim C5 on the concrete glitch frame. -/
theorem C5_spurious_reject_witness :
    sony_raw_event scDefer rdSpur 49 =
      { sc := scDefer, sample := none, ret := -22, scheduled := false } :=
  C5_spurious_reject scDefer rdSpur (by decide) rfl (by decide)

/-- Pointwise write into a report buffer modelled as a byte function. -/
def bufWrite (buf : Nat → Nat) (i v : Nat) : Nat → Nat :=
  fun j => if j = i then v else buf j

/-- The 36-byte factory default Sixaxis output report template. Byte 0 is
the report id, bytes 1-5 the rumble block, 6-9 padding, byte 10 the LED
bitmap, bytes 11 + 5k .. 15 + 5k the five timing bytes of LED slot k. -/
def sixaxis_default_report : List Nat :=
  [0x01,
   0x01, 0xff, 0x00, 0xff, 0x00,
   0x00, 0x00, 0x00, 0x00, 0x00,
   0xff, 0x27, 0x10, 0x00, 0x32,
   0xff, 0x27, 0x10, 0x00, 0x32,
   0xff, 0x27, 0x10, 0x00, 0x32,
   0xff, 0x27, 0x10, 0x00, 0x32,
   0x00, 0x00, 0x00, 0x00, 0x00]

/-- The blink-timing loop body of `sixaxis_send_output_report` for one
logical LED n: writes duty_off and duty_on of slot 3 - n only when at
least one of the two delays is non-zero. -/
def sixaxis_apply_blink (sc : sony_sc) (buf : Nat → Nat) (n : Nat) : Nat → Nat :=
  if sc.led_delay_on n ≠ 0 ∨ sc.led_delay_off n ≠ 0 then
    bufWrite (bufWrite buf (11 + 5 * (3 - n) + 3) (sc.led_delay_off n))
      (11 + 5 * (3 - n) + 4) (sc.led_delay_on n)
  else buf

/-- Embedding of `sixaxis_send_output_report`: seed the buffer from the
default template, overlay the rumble bytes, accumulate the LED bitmap
(bit n + 1 for LED n), set the all-off sentinel bit 0x20 when the four
LED bits are all clear, then run the blink-timing loop in reverse slot
order. -/
def sixaxis_send_output_report (sc : sony_sc) : Nat → Nat :=
  let buf := fun i => sixaxis_default_report.getD i 0
  let buf := bufWrite buf 3 (if sc.right ≠ 0 then 1 else 0)
  let buf := bufWrite buf 5 sc.left
  let bitmap := buf 10
  let bitmap := bitmap ||| (sc.led_state 0 <<< 1)
  let bitmap := bitmap ||| (sc.led_state 1 <<< 2)
  let bitmap := bitmap ||| (sc.led_state 2 <<< 3)
  let bitmap := bitmap ||| (sc.led_state 3 <<< 4)
  let bitmap := if bitmap &&& 0x1E = 0 then bitmap ||| 0x20 else bitmap
  let buf := bufWrite buf 10 bitmap
  let buf := sixaxis_apply_blink sc buf 0
  let buf := sixaxis_apply_blink sc buf 1
  let buf := sixaxis_apply_blink sc buf 2
  let buf := sixaxis_apply_blink sc buf 3
  buf

lemma apply_blink_ne (sc : sony_sc) (buf : Nat → Nat) (n j : Nat)
    (h3 : j ≠ 11 + 5 * (3 - n) + 3) (h4 : j ≠ 11 + 5 * (3 - n) + 4) :
    sixaxis_apply_blink sc buf n j = buf j := by
  unfold sixaxis_apply_blink bufWrite
  split
  · beta_reduce
    rw [if_neg h4, if_neg h3]
  · rfl

lemma leds_bitmap_byte (sc : sony_sc) :
    sixaxis_send_output_report sc 10 =
      (if ((((0 ||| (sc.led_state 0 <<< 1)) ||| (sc.led_state 1 <<< 2))
              ||| (sc.led_state 2 <<< 3)) ||| (sc.led_state 3 <<< 4)) &&& 0x1E = 0
       then ((((0 ||| (sc.led_state 0 <<< 1)) ||| (sc.led_state 1 <<< 2))
              ||| (sc.led_state 2 <<< 3)) ||| (sc.led_state 3 <<< 4)) ||| 0x20
       else (((0 ||| (sc.led_state 0 <<< 1)) ||| (sc.led_state 1 <<< 2))
              ||| (sc.led_state 2 <<< 3)) ||| (sc.led_state 3 <<< 4)) := by
  unfold sixaxis_send_output_report
  rw [apply_blink_ne _ _ 3 10 (by omega) (by omega),
      apply_blink_ne _ _ 2 10 (by omega) (by omega),
      apply_blink_ne _ _ 1 10 (by omega) (by omega),
      apply_blink_ne _ _ 0 10 (by omega) (by omega)]
  simp [bufWrite, sixaxis_default_report]

/-- Claim C8: for device states with boolean LED values (the driver
registers the four LEDs with maximum brightness 1), the encoded LED
bitmap byte has LED n at bit n + 1, and when all four LED bits are clear
the all-LEDs-off sentinel bit 0x20 is additionally set. -/
theorem C8_led_bitmap (sc : sony_sc) (h : ∀ i, sc.led_state i ≤ 1) :
    ((sixaxis_send_output_report sc 10).testBit 1 = decide (sc.led_state 0 = 1)) ∧
    ((sixaxis_send_output_report sc 10).testBit 2 = decide (sc.led_state 1 = 1)) ∧
    ((sixaxis_send_output_report sc 10).testBit 3 = decide (sc.led_state 2 = 1)) ∧
    ((sixaxis_send_output_report sc 10).testBit 4 = decide (sc.led_state 3 = 1)) ∧
    (sc.led_state 0 = 0 → sc.led_state 1 = 0 → sc.led_state 2 = 0 → sc.led_state 3 = 0 →
      (sixaxis_send_output_report sc 10).testBit 5 = true) := by
  rw [leds_bitmap_byte]
  rcases Nat.le_one_iff_eq_zero_or_eq_one.mp (h 0) with h0 | h0 <;>
    rcases Nat.le_one_iff_eq_zero_or_eq_one.mp (h 1) with h1 | h1 <;>
    rcases Nat.le_one_iff_eq_zero_or_eq_one.mp (h 2) with h2 | h2 <;>
    rcases Nat.le_one_iff_eq_zero_or_eq_one.mp (h 3) with h3 | h3 <;>
    rw [h0, h1, h2, h3] <;> decide

/-- Witness for claim C8 on the all-LEDs-off record, exercising the
sentinel bit. -/
theorem C8_led_bitmap_witness :
    ((sixaxis_send_output_report scUsbA 10).testBit 1 = decide (scUsbA.led_state 0 = 1)) ∧
    ((sixaxis_send_output_report scUsbA 10).testBit 2 = decide (scUsbA.led_state 1 = 1)) ∧
    ((sixaxis_send_output_report scUsbA 10).testBit 3 = decide (scUsbA.led_state 2 = 1)) ∧
    ((sixaxis_send_output_report scUsbA 10).testBit 4 = decide (scUsbA.led_state 3 = 1)) ∧
    (scUsbA.led_state 0 = 0 → scUsbA.led_state 1 = 0 → scUsbA.led_state 2 = 0 →
      scUsbA.led_state 3 = 0 → (sixaxis_send_output_report scUsbA 10).testBit 5 = true) :=
  C8_led_bitmap scUsbA (fun _ => by show (0 : Nat) ≤ 1; decide)

lemma apply_blink_off (sc : sony_sc) (buf : Nat → Nat) (n j : Nat)
    (hj : j = 11 + 5 * (3 - n) + 3) :
    sixaxis_apply_blink sc buf n j =
      if sc.led_delay_on n ≠ 0 ∨ sc.led_delay_off n ≠ 0 then sc.led_delay_off n else buf j := by
  subst hj
  unfold sixaxis_apply_blink bufWrite
  split
  · beta_reduce
    rw [if_neg (by omega), if_pos rfl]
  · rfl

lemma apply_blink_on (sc : sony_sc) (buf : Nat → Nat) (n j : Nat)
    (hj : j = 11 + 5 * (3 - n) + 4) :
    sixaxis_apply_blink sc buf n j =
      if sc.led_delay_on n ≠ 0 ∨ sc.led_delay_off n ≠ 0 then sc.led_delay_on n else buf j := by
  subst hj
  unfold sixaxis_apply_blink bufWrite
  split
  · beta_reduce
    rw [if_pos rfl]
  · rfl

lemma encode_at_29 (sc : sony_sc) :
    sixaxis_send_output_report sc 29 =
      if sc.led_delay_on 0 ≠ 0 ∨ sc.led_delay_off 0 ≠ 0 then sc.led_delay_off 0 else 0x00 := by
  simp only [sixaxis_send_output_report]
  rw [apply_blink_ne sc _ 3 29 (by norm_num) (by norm_num),
      apply_blink_ne sc _ 2 29 (by norm_num) (by norm_num),
      apply_blink_ne sc _ 1 29 (by norm_num) (by norm_num),
      apply_blink_off sc _ 0 29 (by norm_num)]
  by_cases hc : sc.led_delay_on 0 ≠ 0 ∨ sc.led_delay_off 0 ≠ 0
  · rw [if_pos hc, if_pos hc]
  · rw [if_neg hc, if_neg hc]
    exact rfl

lemma encode_at_30 (sc : sony_sc) :
    sixaxis_send_output_report sc 30 =
      if sc.led_delay_on 0 ≠ 0 ∨ sc.led_delay_off 0 ≠ 0 then sc.led_delay_on 0 else 0x32 := by
  simp only [sixaxis_send_output_report]
  rw [apply_blink_ne sc _ 3 30 (by norm_num) (by norm_num),
      apply_blink_ne sc _ 2 30 (by norm_num) (by norm_num),
      apply_blink_ne sc _ 1 30 (by norm_num) (by norm_num),
      apply_blink_on sc _ 0 30 (by norm_num)]
  by_cases hc : sc.led_delay_on 0 ≠ 0 ∨ sc.led_delay_off 0 ≠ 0
  · rw [if_pos hc, if_pos hc]
  · rw [if_neg hc, if_neg hc]
    exact rfl

lemma encode_at_24 (sc : sony_sc) :
    sixaxis_send_output_report sc 24 =
      if sc.led_delay_on 1 ≠ 0 ∨ sc.led_delay_off 1 ≠ 0 then sc.led_delay_off 1 else 0x00 := by
  simp only [sixaxis_send_output_report]
  rw [apply_blink_ne sc _ 3 24 (by norm_num) (by norm_num),
      apply_blink_ne sc _ 2 24 (by norm_num) (by norm_num),
      apply_blink_off sc _ 1 24 (by norm_num)]
  by_cases hc : sc.led_delay_on 1 ≠ 0 ∨ sc.led_delay_off 1 ≠ 0
  · rw [if_pos hc, if_pos hc]
  · rw [if_neg hc, if_neg hc]
    rw [apply_blink_ne sc _ 0 24 (by norm_num) (by norm_num)]
    exact rfl

lemma encode_at_25 (sc : sony_sc) :
    sixaxis_send_output_report sc 25 =
      if sc.led_delay_on 1 ≠ 0 ∨ sc.led_delay_off 1 ≠ 0 then sc.led_delay_on 1 else 0x32 := by
  simp only [sixaxis_send_output_report]
  rw [apply_blink_ne sc _ 3 25 (by norm_num) (by norm_num),
      apply_blink_ne sc _ 2 25 (by norm_num) (by norm_num),
      apply_blink_on sc _ 1 25 (by norm_num)]
  by_cases hc : sc.led_delay_on 1 ≠ 0 ∨ sc.led_delay_off 1 ≠ 0
  · rw [if_pos hc, if_pos hc]
  · rw [if_neg hc, if_neg hc]
    rw [apply_blink_ne sc _ 0 25 (by norm_num) (by norm_num)]
    exact rfl

lemma encode_at_19 (sc : sony_sc) :
    sixaxis_send_output_report sc 19 =
      if sc.led_delay_on 2 ≠ 0 ∨ sc.led_delay_off 2 ≠ 0 then sc.led_delay_off 2 else 0x00 := by
  simp only [sixaxis_send_output_report]
  rw [apply_blink_ne sc _ 3 19 (by norm_num) (by norm_num),
      apply_blink_off sc _ 2 19 (by norm_num)]
  by_cases hc : sc.led_delay_on 2 ≠ 0 ∨ sc.led_delay_off 2 ≠ 0
  · rw [if_pos hc, if_pos hc]
  · rw [if_neg hc, if_neg hc]
    rw [apply_blink_ne sc _ 1 19 (by norm_num) (by norm_num),
        apply_blink_ne sc _ 0 19 (by norm_num) (by norm_num)]
    exact rfl

lemma encode_at_20 (sc : sony_sc) :
    sixaxis_send_output_report sc 20 =
      if sc.led_delay_on 2 ≠ 0 ∨ sc.led_delay_off 2 ≠ 0 then sc.led_delay_on 2 else 0x32 := by
  simp only [sixaxis_send_output_report]
  rw [apply_blink_ne sc _ 3 20 (by norm_num) (by norm_num),
      apply_blink_on sc _ 2 20 (by norm_num)]
  by_cases hc : sc.led_delay_on 2 ≠ 0 ∨ sc.led_delay_off 2 ≠ 0
  · rw [if_pos hc, if_pos hc]
  · rw [if_neg hc, if_neg hc]
    rw [apply_blink_ne sc _ 1 20 (by norm_num) (by norm_num),
        apply_blink_ne sc _ 0 20 (by norm_num) (by norm_num)]
    exact rfl

lemma encode_at_14 (sc : sony_sc) :
    sixaxis_send_output_report sc 14 =
      if sc.led_delay_on 3 ≠ 0 ∨ sc.led_delay_off 3 ≠ 0 then sc.led_delay_off 3 else 0x00 := by
  simp only [sixaxis_send_output_report]
  rw [apply_blink_off sc _ 3 14 (by norm_num)]
  by_cases hc : sc.led_delay_on 3 ≠ 0 ∨ sc.led_delay_off 3 ≠ 0
  · rw [if_pos hc, if_pos hc]
  · rw [if_neg hc, if_neg hc]
    rw [apply_blink_ne sc _ 2 14 (by norm_num) (by norm_num),
        apply_blink_ne sc _ 1 14 (by norm_num) (by norm_num),
        apply_blink_ne sc _ 0 14 (by norm_num) (by norm_num)]
    exact rfl

lemma encode_at_15 (sc : sony_sc) :
    sixaxis_send_output_report sc 15 =
      if sc.led_delay_on 3 ≠ 0 ∨ sc.led_delay_off 3 ≠ 0 then sc.led_delay_on 3 else 0x32 := by
  simp only [sixaxis_send_output_report]
  rw [apply_blink_on sc _ 3 15 (by norm_num)]
  by_cases hc : sc.led_delay_on 3 ≠ 0 ∨ sc.led_delay_off 3 ≠ 0
  · rw [if_pos hc, if_pos hc]
  · rw [if_neg hc, if_neg hc]
    rw [apply_blink_ne sc _ 2 15 (by norm_num) (by norm_num),
        apply_blink_ne sc _ 1 15 (by norm_num) (by norm_num),
        apply_blink_ne sc _ 0 15 (by norm_num) (by norm_num)]
    exact rfl

/-- Claim C9: the encoder writes LED n's blink timing bytes into timing
slot 3 - n (reverse index order: logical LED 0 occupies the last slot),
and only when at least one of the two delays is non-zero; when both are
zero the factory template's timing bytes 0x00 and 0x32 for that slot are
left untouched. -/
theorem C9_blink_timing (sc : sony_sc) (n : Nat) (hn : n < 4) :
    (sixaxis_send_output_report sc (11 + 5 * (3 - n) + 3) =
      if sc.led_delay_on n ≠ 0 ∨ sc.led_delay_off n ≠ 0 then sc.led_delay_off n else 0x00) ∧
    (sixaxis_send_output_report sc (11 + 5 * (3 - n) + 4) =
      if sc.led_delay_on n ≠ 0 ∨ sc.led_delay_off n ≠ 0 then sc.led_delay_on n else 0x32) := by
  interval_cases n
  · exact ⟨encode_at_29 sc, encode_at_30 sc⟩
  · exact ⟨encode_at_24 sc, encode_at_25 sc⟩
  · exact ⟨encode_at_19 sc, encode_at_20 sc⟩
  · exact ⟨encode_at_14 sc, encode_at_15 sc⟩

/-- Witness for claim C9 at LED index 0 of the concrete record. -/
theorem C9_blink_timing_witness :
    (sixaxis_send_output_report scUsbA (11 + 5 * (3 - 0) + 3) =
      if scUsbA.led_delay_on 0 ≠ 0 ∨ scUsbA.led_delay_off 0 ≠ 0 then scUsbA.led_delay_off 0
      else 0x00) ∧
    (sixaxis_send_output_report scUsbA (11 + 5 * (3 - 0) + 4) =
      if scUsbA.led_delay_on 0 ≠ 0 ∨ scUsbA.led_delay_off 0 ≠ 0 then scUsbA.led_delay_on 0
      else 0x32) :=
  C9_blink_timing scUsbA 0 (by decide)

/-- Embedding of `buzz_set_leds`: the seven output values the Buzz-style
send path writes into the HID output report, value n + 1 being 0xff when
LED n is lit and 0x00 otherwise. -/
def buzz_set_leds (sc : sony_sc) : List Nat :=
  [0x00,
   if sc.led_state 0 ≠ 0 then 0xff else 0x00,
   if sc.led_state 1 ≠ 0 then 0xff else 0x00,
   if sc.led_state 2 ≠ 0 then 0xff else 0x00,
   if sc.led_state 3 ≠ 0 then 0xff else 0x00,
   0x00, 0x00]

/-- Embedding of `sony_set_leds`, which unconditionally takes the Buzz
path and transmits immediately. -/
def sony_set_leds (sc : sony_sc) : List Nat := buzz_set_leds sc

/-- The record update performed by an effective `sony_led_set_brightness`
call: store the value in LED n and clear its two blink delays. -/
def ledsUpdated (sc : sony_sc) (n v : Nat) : sony_sc :=
  { sc with led_state := bufWrite sc.led_state n v,
            led_delay_on := bufWrite sc.led_delay_on n 0,
            led_delay_off := bufWrite sc.led_delay_off n 0 }

/-- Embedding of `sony_led_set_brightness` for the LED registered at
index n: when n is a registered LED and the force-update quirk is set or
the value or a pending blink delay differs, it mutates the record and
immediately transmits one buffer via `sony_set_leds`; otherwise it is a
no-op that transmits nothing. The returned list holds the transmitted
buffers of this call. -/
def sony_led_set_brightness (sc : sony_sc) (n v : Nat) : sony_sc × List (List Nat) :=
  if n < sc.led_count ∧ (sc.quirks &&& SIXAXIS_CONTROLLER_USB ≠ 0 ∨ v ≠ sc.led_state n ∨
      sc.led_delay_on n ≠ 0 ∨ sc.led_delay_off n ≠ 0) then
    (ledsUpdated sc n v, [sony_set_leds (ledsUpdated sc n v)])
  else (sc, [])

/-- Run a sequence of `sony_led_set_brightness` calls, collecting every
transmitted buffer in order. -/
def runSetLeds : sony_sc → List (Nat × Nat) → sony_sc × List (List Nat)
  | sc, [] => (sc, [])
  | sc, c :: rest =>
    let step := sony_led_set_brightness sc c.1 c.2
    let restRun := runSetLeds step.1 rest
    (restRun.1, step.2 ++ restRun.2)

lemma set_brightness_eff (sc : sony_sc) (n v : Nat)
    (h : n < sc.led_count ∧ (sc.quirks &&& SIXAXIS_CONTROLLER_USB ≠ 0 ∨ v ≠ sc.led_state n ∨
      sc.led_delay_on n ≠ 0 ∨ sc.led_delay_off n ≠ 0)) :
    sony_led_set_brightness sc n v =
      (ledsUpdated sc n v, [sony_set_leds (ledsUpdated sc n v)]) := by
  unfold sony_led_set_brightness
  rw [if_pos h]

/-- Claim C6, counterexample: two consecutive `set_led` calls between
two scheduler ticks transmit two output buffers, not exactly one; the
brightness path sends synchronously on every effective call. -/
theorem C6_counterexample :
    (runSetLeds scUsbA [(0, 1), (0, 1)]).2.length = 2 ∧
    (runSetLeds scUsbA [(0, 1), (0, 1)]).2.length ≠ 1 := by
  refine ⟨by decide, by decide⟩

/-- Claim C6 as amended: on a force-update (USB quirk) device, every
`set_led` call on a registered LED transmits exactly one buffer
immediately and synchronously, so K calls produce K transmissions (no
coalescing on this path), and the last transmitted buffer reflects the
state after the final mutation. -/
theorem C6_set_led_transmissions (sc : sony_sc) (calls : List (Nat × Nat))
    (husb : sc.quirks &&& SIXAXIS_CONTROLLER_USB ≠ 0)
    (hidx : ∀ c ∈ calls, c.1 < sc.led_count) :
    (runSetLeds sc calls).2.length = calls.length ∧
    (calls ≠ [] →
      (runSetLeds sc calls).2.getLast? = some (sony_set_leds (runSetLeds sc calls).1)) := by
  induction calls generalizing sc with
  | nil => exact ⟨rfl, fun h => absurd rfl h⟩
  | cons c rest ih =>
    have hc1 : c.1 < sc.led_count := hidx c (List.mem_cons_self c rest)
    have hguard : c.1 < sc.led_count ∧ (sc.quirks &&& SIXAXIS_CONTROLLER_USB ≠ 0 ∨
        c.2 ≠ sc.led_state c.1 ∨ sc.led_delay_on c.1 ≠ 0 ∨ sc.led_delay_off c.1 ≠ 0) :=
      ⟨hc1, Or.inl husb⟩
    have husb2 : (ledsUpdated sc c.1 c.2).quirks &&& SIXAXIS_CONTROLLER_USB ≠ 0 := husb
    have hidx2 : ∀ d ∈ rest, d.1 < (ledsUpdated sc c.1 c.2).led_count :=
      fun d hd => hidx d (List.mem_cons_of_mem c hd)
    have ihx := ih (ledsUpdated sc c.1 c.2) husb2 hidx2
    simp only [runSetLeds, set_brightness_eff sc c.1 c.2 hguard]
    refine ⟨by simp [ihx.1], ?_⟩
    intro hne
    cases rest with
    | nil =>
      simp [runSetLeds]
    | cons r t =>
      have hlen := ihx.1
      have hne2 : (runSetLeds (ledsUpdated sc c.1 c.2) (r :: t)).2 ≠ [] := by
        intro h0
        rw [h0] at hlen
        simp at hlen
      obtain ⟨o, os, ho⟩ := List.exists_cons_of_ne_nil hne2
      have hlast := ihx.2 (by simp)
      simp only [List.singleton_append]
      rw [ho, List.getLast?_cons_cons, ← ho]
      exact hlast

/-- Witness for the amended claim C6 on a single concrete call. -/
theorem C6_set_led_transmissions_witness :
    (runSetLeds scUsbA [(0, 1)]).2.length = [(0, 1)].length ∧
    ([(0, 1)] ≠ ([] : List (Nat × Nat)) →
      (runSetLeds scUsbA [(0, 1)]).2.getLast? =
        some (sony_set_leds (runSetLeds scUsbA [(0, 1)]).1)) :=
  C6_set_led_transmissions scUsbA [(0, 1)] (by decide)
    (fun c hc => by rw [List.mem_singleton] at hc; subst hc; decide)

/-- An all-zero frame. -/
def rdZero : Nat → Nat := fun _ => 0

/-- Claim C7, counterexample: with the latch set, a 17-byte frame that
is never decoded (no sample is produced) still clears the latch and
schedules a flush, so frames other than successfully decoded ones also
clear the latch. -/
theorem C7_counterexample :
    (sony_raw_event scDefer rdZero 17).sample = none ∧
    (sony_raw_event scDefer rdZero 17).sc.defer_initialization = false ∧
    (sony_raw_event scDefer rdZero 17).scheduled = true ∧
    scDefer.defer_initialization = true := by
  refine ⟨by decide, by decide, by decide, by decide⟩

lemma parse_preserves_defer (sc : sony_sc) (rd : Nat → Nat) :
    (sixaxis_parse_report sc rd).1.defer_initialization = sc.defer_initialization := rfl

lemma parse_preserves_worker (sc : sony_sc) (rd : Nat → Nat) :
    (sixaxis_parse_report sc rd).1.state_worker_initialized = sc.state_worker_initialized := rfl

lemma defer_step_of_set (s : sony_sc) (sm : Option SixaxisSample)
    (h : s.defer_initialization = true) :
    (sony_defer_step s sm).sc.defer_initialization = false ∧
    (sony_defer_step s sm).scheduled = s.state_worker_initialized := by
  unfold sony_defer_step
  rw [if_pos h]
  exact ⟨rfl, by simp [sony_schedule_work]⟩

lemma raw_event_defer_clear (sc : sony_sc) (rd : Nat → Nat) (size : Nat)
    (hdefer : sc.defer_initialization = true)
    (hns : ¬ (sc.quirks &&& SIXAXIS_CONTROLLER ≠ 0 ∧ rd 0 = 0x01 ∧ size = 49 ∧ rd 1 = 0xff)) :
    (sony_raw_event sc rd size).sc.defer_initialization = false ∧
    (sony_raw_event sc rd size).scheduled = sc.state_worker_initialized := by
  by_cases hQ : sc.quirks &&& SIXAXIS_CONTROLLER ≠ 0 ∧ rd 0 = 0x01 ∧ size = 49
  · have h1 : rd 1 ≠ 0xff := fun hff => hns ⟨hQ.1, hQ.2.1, hQ.2.2, hff⟩
    unfold sony_raw_event
    rw [if_pos hQ, if_neg h1]
    exact ⟨(defer_step_of_set _ _ ((parse_preserves_defer _ _).trans hdefer)).1,
      ((defer_step_of_set _ _ ((parse_preserves_defer _ _).trans hdefer)).2).trans
        (parse_preserves_worker _ _)⟩
  · unfold sony_raw_event
    rw [if_neg hQ]
    exact defer_step_of_set _ _ hdefer

/-- Claim C7 as amended: while the deferred-first-flush latch is set no
flush is ever scheduled by `sony_schedule_work`; a spurious sentinel
frame leaves the latch set and schedules nothing; but any other frame,
decodable or not, clears the latch, and with the worker initialized this
triggers exactly one flush. -/
theorem C7_defer_latch (sc : sony_sc) (rd : Nat → Nat) (size : Nat)
    (hdefer : sc.defer_initialization = true)
    (hworker : sc.state_worker_initialized = true) :
    sony_schedule_work sc = false ∧
    ((sc.quirks &&& SIXAXIS_CONTROLLER ≠ 0 ∧ rd 0 = 0x01 ∧ size = 49 ∧ rd 1 = 0xff) →
      (sony_raw_event sc rd size).sc.defer_initialization = true ∧
      (sony_raw_event sc rd size).scheduled = false) ∧
    (¬ (sc.quirks &&& SIXAXIS_CONTROLLER ≠ 0 ∧ rd 0 = 0x01 ∧ size = 49 ∧ rd 1 = 0xff) →
      (sony_raw_event sc rd size).sc.defer_initialization = false ∧
      (sony_raw_event sc rd size).scheduled = true) := by
  refine ⟨by simp [sony_schedule_work, hdefer], ?_, ?_⟩
  · rintro ⟨hq, h0, hs, h1⟩
    subst hs
    unfold sony_raw_event
    rw [if_pos ⟨hq, h0, rfl⟩, if_pos h1]
    exact ⟨hdefer, rfl⟩
  · intro hns
    have h := raw_event_defer_clear sc rd size hdefer hns
    exact ⟨h.1, h.2.trans hworker⟩

/-- Witness for the amended claim C7 on a concrete 17-byte frame. -/
theorem C7_defer_latch_witness :
    sony_schedule_work scDefer = false ∧
    ((scDefer.quirks &&& SIXAXIS_CONTROLLER ≠ 0 ∧ rdZero 0 = 0x01 ∧ (17 : Nat) = 49 ∧
        rdZero 1 = 0xff) →
      (sony_raw_event scDefer rdZero 17).sc.defer_initialization = true ∧
      (sony_raw_event scDefer rdZero 17).scheduled = false) ∧
    (¬ (scDefer.quirks &&& SIXAXIS_CONTROLLER ≠ 0 ∧ rdZero 0 = 0x01 ∧ (17 : Nat) = 49 ∧
        rdZero 1 = 0xff) →
      (sony_raw_event scDefer rdZero 17).sc.defer_initialization = false ∧
      (sony_raw_event scDefer rdZero 17).scheduled = true) :=
  C7_defer_latch scDefer rdZero 17 rfl rfl

/-- Embedding of `ida_free` on a pool modelled as the list of currently
allocated ids: remove one occurrence of the freed id. -/
def ida_free (p : List Int) (id : Int) : List Int := p.erase id

/-- Embedding of `sony_release_device_id`: free the numeric id back to
the pool and store -1, but only when an id is actually held. -/
def sony_release_device_id (p : List Int) (sc : sony_sc) : List Int × sony_sc :=
  if 0 ≤ sc.device_id then
    (ida_free p sc.device_id, { sc with device_id := -1 })
  else (p, sc)

/-- A record currently holding numeric device id 5. -/
def scId5 : sony_sc := { mkSc SIXAXIS_CONTROLLER_USB [1, 2, 3, 4, 5, 6] with device_id := 5 }

/-- Claim C10: releasing the numeric device id is idempotent: a release
frees the held id back to the pool and stores -1, a second release (or a
release on a record whose variant never acquired an id) is a no-op, so
no id is ever freed twice. -/
theorem C10_release_idempotent (p : List Int) (sc : sony_sc) :
    sony_release_device_id (sony_release_device_id p sc).1 (sony_release_device_id p sc).2 =
      sony_release_device_id p sc ∧
    (sc.device_id = -1 → sony_release_device_id p sc = (p, sc)) ∧
    (0 ≤ sc.device_id →
      (sony_release_device_id p sc).1 = p.erase sc.device_id ∧
      (sony_release_device_id p sc).2.device_id = -1) := by
  by_cases h : 0 ≤ sc.device_id
  · have h1 : sony_release_device_id p sc =
        (ida_free p sc.device_id, { sc with device_id := -1 }) := by
      unfold sony_release_device_id
      rw [if_pos h]
    refine ⟨?_, ?_, ?_⟩
    · rw [h1]
      exact rfl
    · intro hid
      exact absurd h (by rw [hid]; decide)
    · intro _
      rw [h1]
      exact ⟨rfl, rfl⟩
  · have h1 : sony_release_device_id p sc = (p, sc) := by
      unfold sony_release_device_id
      rw [if_neg h]
    refine ⟨?_, fun _ => h1, fun hc => absurd hc h⟩
    rw [h1]
    exact h1

/-- Witness for claim C10 on a concrete record holding id 5 with a pool
containing that id. -/
theorem C10_release_idempotent_witness :
    sony_release_device_id (sony_release_device_id [(5 : Int)] scId5).1
        (sony_release_device_id [(5 : Int)] scId5).2 =
      sony_release_device_id [(5 : Int)] scId5 ∧
    (scId5.device_id = -1 → sony_release_device_id [(5 : Int)] scId5 = ([(5 : Int)], scId5)) ∧
    (0 ≤ scId5.device_id →
      (sony_release_device_id [(5 : Int)] scId5).1 = [(5 : Int)].erase scId5.device_id ∧
      (sony_release_device_id [(5 : Int)] scId5).2.device_id = -1) :=
  C10_release_idempotent [(5 : Int)] scId5
